import Mathlib

/-!
Shallow embedding of the automation engine in
src/extend_python/python_api/automation/manager.py: folder watching state,
event debouncing queue, rule-based classification, quality gating, batch
orchestration, and statistics/reporting.

External collaborators (the filesystem and the import backend) are modelled
as oracle records of pure functions; exceptions raised by the external
backend call are modelled with Except.  Wall-clock readings are passed in
explicitly as natural-number timestamps (seconds); float durations and
rates are modelled as rationals.
-/

namespace Automation

/-- A configured watch-folder entry, as built by add_watch_folder:
path (absolute, canonicalized), category tag, enabled flag, added time. -/
structure WatchEntry where
  path : String
  category : String
  enabled : Bool
  added_time : Nat
  deriving DecidableEq, Repr

/-- One import rule, keyed by category in the configuration
(destination, translator_options, file_patterns, auto_import). -/
structure ImportRule where
  destination : String
  translator_options : List (String × String)
  file_patterns : List String
  auto_import : Bool
  deriving DecidableEq, Repr

/-- The quality_checks section of the configuration. -/
structure QualityPolicy where
  enabled : Bool
  max_file_size_mb : Nat
  min_file_size_bytes : Nat
  allowed_extensions : List String
  scan_for_viruses : Bool
  deriving DecidableEq, Repr

/-- The performance section of the configuration (advisory only). -/
structure PerformanceConfig where
  max_concurrent_imports : Nat
  processing_delay_seconds : Nat
  batch_size : Nat
  timeout_seconds : Nat
  deriving DecidableEq, Repr

/-- The automation configuration document: watch_folders, import_rules
(association list keyed by category, preserving insertion order),
quality_checks and performance. -/
structure Config where
  watch_folders : List WatchEntry
  import_rules : List (String × ImportRule)
  quality_checks : QualityPolicy
  performance : PerformanceConfig
  deriving DecidableEq, Repr

/-- The filesystem oracle: os.path.exists, os.path.getsize (bytes) and
os.path.abspath (canonicalization) as opaque pure functions. -/
structure FileSystem where
  path_exists : String → Bool
  getsize : String → Nat
  abspath : String → String

/-- The external import backend (CustomFooTranslator) oracle.
validate_file returns an (is_valid, message) pair; import_file either
returns a success boolean or raises (modelled as Except.error with the
exception text). -/
structure Translator where
  validate_file : String → Bool × String
  import_file : String → String → Except String Bool

/-- The running statistics dictionary of AutomationManager. -/
structure Statistics where
  total_processed : Nat
  successful_imports : Nat
  failed_imports : Nat
  start_time : Option Nat
  last_activity : Option Nat
  files_per_category : List (String × Nat)
  processing_times : List Rat
  deriving DecidableEq, Repr

/-- The initial statistics created in AutomationManager.__init__. -/
def initialStatistics : Statistics :=
  { total_processed := 0
    successful_imports := 0
    failed_imports := 0
    start_time := none
    last_activity := none
    files_per_category := []
    processing_times := [] }

/-- os.path.basename on a POSIX path: the part after the last slash. -/
def basename (p : String) : String :=
  (p.splitOn "/").getLastD ""

/-- Helper for splitext: the suffix starting at the last dot of the list,
when a dot is present. -/
def extAfterLastDot : List Char → Option (List Char)
  | [] => none
  | '.' :: rest =>
    match extAfterLastDot rest with
    | some e => some e
    | none => some ('.' :: rest)
  | _ :: rest => extAfterLastDot rest

/-- The extension component of os.path.splitext: the suffix from the last
dot of the basename, except that leading dots of the basename never start
an extension. -/
def splitext_ext (p : String) : String :=
  let core := (basename p).toList.dropWhile (fun c => c == '.')
  match extAfterLastDot core with
  | some e => String.mk e
  | none => ""

/-- Which quality check failed, mirroring the distinct log messages of
_perform_quality_checks (pass / does not exist / too large / too small /
extension not allowed / validation failed). -/
inductive QualityResult where
  | pass
  | notExists
  | tooLarge
  | tooSmall
  | extNotAllowed
  | invalidFile (msg : String)
  deriving DecidableEq, Repr

/-- _perform_quality_checks: short-circuit sequence of checks in source
order: disabled policy passes trivially; then existence, size above
max_file_size_mb * 1024 * 1024, size below min_file_size_bytes, extension
membership (case-insensitive, only when the allowed list is non-empty),
and finally the delegated translator validation. -/
def perform_quality_checks (fs : FileSystem) (tr : Translator)
    (qc : QualityPolicy) (file_path : String) : QualityResult :=
  if !qc.enabled then .pass
  else if !fs.path_exists file_path then .notExists
  else
    let file_size := fs.getsize file_path
    let max_size := qc.max_file_size_mb * 1024 * 1024
    let min_size := qc.min_file_size_bytes
    if file_size > max_size then .tooLarge
    else if file_size < min_size then .tooSmall
    else if qc.allowed_extensions ≠ [] &&
        !qc.allowed_extensions.contains (splitext_ext file_path).toLower then
      .extNotAllowed
    else
      match tr.validate_file file_path with
      | (false, msg) => .invalidFile msg
      | (true, _) => .pass

/-- Boolean view of the quality gate, as _perform_quality_checks returns it. -/
def quality_checks_pass (fs : FileSystem) (tr : Translator)
    (qc : QualityPolicy) (file_path : String) : Bool :=
  perform_quality_checks fs tr qc file_path == .pass

/-- One element of a compiled shell-glob pattern (fnmatch.translate):
a star, a single-character wildcard, a literal character, or a character
class with optional negation. -/
inductive GlobToken where
  | star
  | anyChar
  | lit (c : Char)
  | cls (negated : Bool) (body : List Char)
  deriving DecidableEq, Repr

/-- Split a character-class body at its closing bracket; a close bracket
in first position is part of the class.  Returns the class body and the
remainder of the pattern, or none when the class is unterminated. -/
def classSplit (cs : List Char) : Option (List Char × List Char) :=
  match (cs.drop (if cs.head? == some ']' then 1 else 0)).findIdx?
      (fun c => c == ']') with
  | none => none
  | some i =>
    some (cs.take ((if cs.head? == some ']' then 1 else 0) + i),
      cs.drop ((if cs.head? == some ']' then 1 else 0) + i + 1))

/-- The pattern remainder returned by classSplit is no longer than its
input (used for termination of the tokenizer). -/
def classSplit_length {cs body after : List Char}
    (h : classSplit cs = some (body, after)) : after.length ≤ cs.length := by
  unfold classSplit at h
  rcases hf : ((cs.drop (if cs.head? == some ']' then 1 else 0)).findIdx?
      (fun c => c == ']')) with _ | i
  all_goals rw [hf] at h
  all_goals simp only [Option.some.injEq, Prod.mk.injEq, reduceCtorEq] at h
  obtain ⟨-, h2⟩ := h
  subst h2
  simp only [List.length_drop]
  omega

/-- Compile a shell-glob pattern into tokens, following fnmatch.translate:
a leading exclamation mark negates a class, an unterminated open bracket
is a literal character. -/
def tokenizePattern : List Char → List GlobToken
  | [] => []
  | '*' :: rest => .star :: tokenizePattern rest
  | '?' :: rest => .anyChar :: tokenizePattern rest
  | '[' :: '!' :: rest =>
    match hcs : classSplit rest with
    | none => .lit '[' :: tokenizePattern ('!' :: rest)
    | some (_body, after) => .cls true _body :: tokenizePattern after
  | '[' :: rest =>
    match hcs : classSplit rest with
    | none => .lit '[' :: tokenizePattern rest
    | some (_body, after) => .cls false _body :: tokenizePattern after
  | c :: rest => .lit c :: tokenizePattern rest
termination_by cs => cs.length
decreasing_by
  all_goals simp only [List.length_cons]
  all_goals first
    | omega
    | (have hcl := classSplit_length hcs; omega)

/-- Membership of a character in a class body, with dash ranges compared
by code point. -/
def charInClass : List Char → Char → Bool
  | [], _ => false
  | a :: '-' :: b :: rest, c =>
    (a.toNat ≤ c.toNat && c.toNat ≤ b.toNat) || charInClass rest c
  | a :: rest, c => a == c || charInClass rest c

/-- Match a tokenized glob pattern against a whole character list
(fnmatch anchors both ends). -/
def matchTokens : List GlobToken → List Char → Bool
  | [], [] => true
  | [], _ :: _ => false
  | .star :: ps, s =>
    matchTokens ps s ||
      (match s with
       | [] => false
       | _ :: s2 => matchTokens (.star :: ps) s2)
  | .anyChar :: ps, _ :: s2 => matchTokens ps s2
  | .anyChar :: _, [] => false
  | .lit c :: ps, c2 :: s2 => c == c2 && matchTokens ps s2
  | .lit _ :: _, [] => false
  | .cls neg body :: ps, c :: s2 =>
    (neg != charInClass body c) && matchTokens ps s2
  | .cls _ _ :: _, [] => false
termination_by ps s => ps.length + s.length
decreasing_by all_goals (simp only [List.length_cons]; omega)

/-- fnmatch.fnmatch on a POSIX system: whole-string shell-glob match. -/
def fnmatch (name pattern : String) : Bool :=
  matchTokens (tokenizePattern pattern.toList) name.toList

/-- _matches_file_patterns: an empty pattern list accepts everything;
otherwise the lowercased basename must match one of the lowercased
patterns. -/
def matches_file_patterns (file_path : String) (patterns : List String) : Bool :=
  if patterns = [] then true
  else
    let file_name := (basename file_path).toLower
    patterns.any (fun pattern => fnmatch file_name pattern.toLower)

/-- Bump a per-category counter in the files_per_category dictionary
(insertion order preserved; a new category is appended with count 1),
as files_per_category.get(category, 0) + 1 updates the dict. -/
def bumpCategory : List (String × Nat) → String → List (String × Nat)
  | [], category => [(category, 1)]
  | (c, n) :: rest, category =>
    if c = category then (c, n + 1) :: rest
    else (c, n) :: bumpCategory rest category

/-- Look up the import rule for a category in the configuration. -/
def lookupRule : List (String × ImportRule) → String → Option ImportRule
  | [], _ => none
  | (c, r) :: rest, category =>
    if c = category then some r else lookupRule rest category

/-- The finally block of process_single_file: append the elapsed
processing time, then keep only the last 100 entries. -/
def recordProcessingTime (stats : Statistics) (elapsed : Rat) : Statistics :=
  let times := stats.processing_times ++ [elapsed]
  { stats with
    processing_times :=
      if times.length > 100 then times.drop (times.length - 100) else times }

/-- process_single_file: bump total_processed, last_activity and the
category counter; then rule lookup (absent rule skips), auto_import gate
(disabled skips), quality gate (failure counts as failed), pattern gate
(mismatch skips), and finally the external import call, whose false
return or raised exception counts as failed.  The finally block always
records the elapsed wall time.  Returns the success flag and the updated
statistics. -/
def process_single_file (fs : FileSystem) (tr : Translator) (cfg : Config)
    (stats : Statistics) (file_path category : String) (now : Nat)
    (elapsed : Rat) : Bool × Statistics :=
  let s1 : Statistics :=
    { stats with
      total_processed := stats.total_processed + 1
      last_activity := some now
      files_per_category := bumpCategory stats.files_per_category category }
  let step : Bool × Statistics :=
    match lookupRule cfg.import_rules category with
    | none => (false, s1)
    | some import_rules =>
      if !import_rules.auto_import then (false, s1)
      else if !quality_checks_pass fs tr cfg.quality_checks file_path then
        (false, { s1 with failed_imports := s1.failed_imports + 1 })
      else if !matches_file_patterns file_path import_rules.file_patterns then
        (false, s1)
      else
        match tr.import_file file_path import_rules.destination with
        | .ok true =>
          (true, { s1 with successful_imports := s1.successful_imports + 1 })
        | .ok false =>
          (false, { s1 with failed_imports := s1.failed_imports + 1 })
        | .error _ =>
          (false, { s1 with failed_imports := s1.failed_imports + 1 })
  (step.1, recordProcessingTime step.2 elapsed)

/-- One per-file detail record of a batch import; info holds the
destination for a success and the error text otherwise. -/
structure BatchDetail where
  file : String
  status : String
  info : String
  deriving DecidableEq, Repr

/-- The result dictionary returned by batch_import_files. -/
structure BatchResult where
  total_files : Nat
  successful : Nat
  failed : Nat
  details : List BatchDetail
  success_rate : Rat
  deriving DecidableEq, Repr

/-- The loop body of batch_import_files: accumulate (successful, failed,
details) over one file; a raised exception is recorded as an error
detail and the loop continues. -/
def batchStep (tr : Translator) (destination_path : String)
    (acc : Nat × Nat × List BatchDetail) (file_path : String) :
    Nat × Nat × List BatchDetail :=
  match tr.import_file file_path destination_path with
  | .ok true =>
    (acc.1 + 1, acc.2.1, acc.2.2 ++ [⟨file_path, "success", destination_path⟩])
  | .ok false =>
    (acc.1, acc.2.1 + 1, acc.2.2 ++ [⟨file_path, "failed", "Import failed"⟩])
  | .error e =>
    (acc.1, acc.2.1 + 1, acc.2.2 ++ [⟨file_path, "error", e⟩])

/-- batch_import_files: sequential loop over the paths invoking the
external import directly, then the derived success rate
(successful / total_files) * 100, or 0 for an empty input list. -/
def batch_import_files (tr : Translator) (file_paths : List String)
    (destination_path : String) : BatchResult :=
  let r := file_paths.foldl (batchStep tr destination_path) (0, 0, [])
  { total_files := file_paths.length
    successful := r.1
    failed := r.2.1
    details := r.2.2
    success_rate :=
      if file_paths.length > 0 then
        ((r.1 : Rat) / (file_paths.length : Rat)) * 100
      else 0 }

/-- A queued filesystem event of FileEventHandler.processing_queue. -/
structure PendingEvent where
  path : String
  event_type : String
  timestamp : Nat
  category : String
  deriving DecidableEq, Repr

/-- _queue_file_for_processing under the processing lock: append a new
entry only when no entry for the same path is already queued. -/
def queue_file_for_processing (queue : List PendingEvent)
    (file_path event_type : String) (now : Nat) (category : String) :
    List PendingEvent :=
  if (queue.map PendingEvent.path).contains file_path then queue
  else queue ++ [⟨file_path, event_type, now, category⟩]

/-- The critical section of _process_queue: snapshot the queue and clear
it; the snapshot is what gets handed item by item to
process_single_file. -/
def process_queue_drain (queue : List PendingEvent) :
    List PendingEvent × List PendingEvent :=
  (queue, [])

/-- The mutable state of AutomationManager relevant to folder watching:
the configuration, the monitoring flag and the keys of the observers
dictionary. -/
structure ManagerState where
  config : Config
  is_monitoring : Bool
  observers : List String
  deriving DecidableEq, Repr

/-- _start_folder_monitoring: a non-existent folder is skipped; otherwise
the folder path is added to the observers dictionary. -/
def start_folder_monitoring (fs : FileSystem) (st : ManagerState)
    (entry : WatchEntry) : ManagerState :=
  if !fs.path_exists entry.path then st
  else if st.observers.contains entry.path then st
  else { st with observers := st.observers ++ [entry.path] }

/-- add_watch_folder: reject a non-existent path; build the entry with
the canonicalized (abspath) folder path; reject a path already present
among the configured watch folders; otherwise append the entry and, when
monitoring is running, start the individual watch. -/
def add_watch_folder (fs : FileSystem) (st : ManagerState)
    (folder_path category : String) (enabled : Bool) (now : Nat) :
    Bool × ManagerState :=
  if !fs.path_exists folder_path then (false, st)
  else
    let watch_entry : WatchEntry :=
      ⟨fs.abspath folder_path, category, enabled, now⟩
    let existing_folders := st.config.watch_folders.map WatchEntry.path
    if !existing_folders.contains watch_entry.path then
      let st2 : ManagerState :=
        { st with config :=
            { st.config with
              watch_folders := st.config.watch_folders ++ [watch_entry] } }
      let st3 :=
        if st2.is_monitoring then start_folder_monitoring fs st2 watch_entry
        else st2
      (true, st3)
    else (false, st)

/-- reset_statistics: zero every counter; re-arm start_time to now when
monitoring is active and clear it otherwise. -/
def reset_statistics (is_monitoring : Bool) (now : Nat) : Statistics :=
  { total_processed := 0
    successful_imports := 0
    failed_imports := 0
    start_time := if is_monitoring then some now else none
    last_activity := none
    files_per_category := []
    processing_times := [] }

/-- Minimum of a duration list, as Python min over a non-empty list. -/
def listMin : List Rat → Option Rat
  | [] => none
  | h :: t => some (t.foldl min h)

/-- Maximum of a duration list, as Python max over a non-empty list. -/
def listMax : List Rat → Option Rat
  | [] => none
  | h :: t => some (t.foldl max h)

/-- The dictionary returned by get_statistics: the raw counters plus the
derived fields (keys that Python adds only conditionally are Options). -/
structure StatisticsView where
  total_processed : Nat
  successful_imports : Nat
  failed_imports : Nat
  start_time : Option Nat
  last_activity : Option Nat
  files_per_category : List (String × Nat)
  processing_times : List Rat
  average_processing_time : Option Rat
  min_processing_time : Option Rat
  max_processing_time : Option Rat
  success_rate : Rat
  uptime_seconds : Option Nat
  uptime_formatted : Option String
  monitoring_enabled : Bool
  watched_folders : Nat
  import_rules_count : Nat
  deriving DecidableEq, Repr

/-- Zero-padded two-digit rendering of minute and second fields. -/
def pad2 (n : Nat) : String :=
  if n < 10 then "0" ++ toString n else toString n

/-- str(timedelta) for a whole-second duration: hours:MM:SS with an
optional day prefix (the clock is modelled at second granularity). -/
def format_timedelta (secs : Nat) : String :=
  let days := secs / 86400
  let rem := secs % 86400
  let hms :=
    toString (rem / 3600) ++ ":" ++ pad2 (rem % 3600 / 60) ++ ":" ++
      pad2 (rem % 60)
  if days = 0 then hms
  else if days = 1 then "1 day, " ++ hms
  else toString days ++ " days, " ++ hms

/-- get_statistics: copy the counters and add the derived metrics:
average/min/max over the retained duration history (present only when
the history is non-empty), the overall success rate (0 when nothing was
processed), uptime since monitoring start (present only when a start
time exists), the monitoring flag and configuration sizes. -/
def get_statistics (stats : Statistics) (is_monitoring : Bool)
    (cfg : Config) (now : Nat) : StatisticsView :=
  { total_processed := stats.total_processed
    successful_imports := stats.successful_imports
    failed_imports := stats.failed_imports
    start_time := stats.start_time
    last_activity := stats.last_activity
    files_per_category := stats.files_per_category
    processing_times := stats.processing_times
    average_processing_time :=
      match stats.processing_times with
      | [] => none
      | _ =>
        some (stats.processing_times.sum / (stats.processing_times.length : Rat))
    min_processing_time := listMin stats.processing_times
    max_processing_time := listMax stats.processing_times
    success_rate :=
      if stats.total_processed > 0 then
        ((stats.successful_imports : Rat) / (stats.total_processed : Rat)) * 100
      else 0
    uptime_seconds := stats.start_time.map (fun s => now - s)
    uptime_formatted := stats.start_time.map (fun s => format_timedelta (now - s))
    monitoring_enabled := is_monitoring
    watched_folders := cfg.watch_folders.length
    import_rules_count := cfg.import_rules.length }

/-- Left-pad a digit string with zeros to the requested width. -/
def padZeros (s : String) (width : Nat) : String :=
  String.mk (List.replicate (width - s.length) '0') ++ s

/-- Fixed-point formatting of a rational with the given number of
decimal places, as Python's fixed-point format specifier renders the
report's rates and timings: the absolute value scaled by a power of ten
is rounded to the nearest integer with ties to even (working on the
numerator and positive denominator directly). -/
def format_fixed (q : Rat) (prec : Nat) : String :=
  let sign := if q < 0 then "-" else ""
  let num := q.num.natAbs * 10 ^ prec
  let den := q.den
  let quot := num / den
  let rem := num % den
  let n :=
    if 2 * rem < den then quot
    else if 2 * rem > den then quot + 1
    else if quot % 2 = 0 then quot else quot + 1
  sign ++ toString (n / 10 ^ prec) ++ "." ++
    padZeros (toString (n % 10 ^ prec)) prec

/-- The separator line of the report: sixty equal signs. -/
def eqLine : String :=
  String.mk (List.replicate 60 '=')

/-- The rendering of datetime.isoformat, modelled abstractly as an
injective rendering of the integer clock value (its exact text does not
matter to any property, only that distinct instants render
distinctly). -/
def isoformat (t : Nat) : String :=
  toString t

/-- The report lines built by generate_report, in source order: header
with generation timestamp, system status (uptime line only when a start
time exists), processing statistics, performance metrics (only when an
average exists and is non-zero, following Python truthiness), per-category
breakdown (only when non-empty), folder configuration, and the closing
separator. -/
def generate_report_lines (cfg : Config) (is_monitoring : Bool)
    (stats : Statistics) (now : Nat) : List String :=
  let sv := get_statistics stats is_monitoring cfg now
  [eqLine,
   "INTERCHANGE AUTOMATION REPORT",
   eqLine,
   "Generated: " ++ isoformat now,
   ""]
  ++ ["SYSTEM STATUS:",
      "  Monitoring Active: " ++ (if sv.monitoring_enabled then "Yes" else "No"),
      "  Watched Folders: " ++ toString sv.watched_folders,
      "  Import Rules: " ++ toString sv.import_rules_count]
  ++ (match sv.uptime_formatted with
      | some u => ["  Uptime: " ++ u]
      | none => [])
  ++ [""]
  ++ ["PROCESSING STATISTICS:",
      "  Total Processed: " ++ toString sv.total_processed,
      "  Successful: " ++ toString sv.successful_imports,
      "  Failed: " ++ toString sv.failed_imports,
      "  Success Rate: " ++ format_fixed sv.success_rate 1 ++ "%",
      ""]
  ++ (match sv.average_processing_time, sv.min_processing_time,
        sv.max_processing_time with
      | some avg, some mn, some mx =>
        if avg = 0 then []
        else
          ["PERFORMANCE METRICS:",
           "  Average Processing Time: " ++ format_fixed avg 3 ++ "s",
           "  Min Processing Time: " ++ format_fixed mn 3 ++ "s",
           "  Max Processing Time: " ++ format_fixed mx 3 ++ "s",
           ""]
      | _, _, _ => [])
  ++ (if sv.files_per_category = [] then []
      else
        "FILES BY CATEGORY:" ::
          sv.files_per_category.map
            (fun e => "  " ++ e.1 ++ ": " ++ toString e.2) ++ [""])
  ++ ["CONFIGURATION:"]
  ++ cfg.watch_folders.map (fun folder =>
      "  " ++ folder.path ++ " (" ++ folder.category ++ ") - " ++
        (if folder.enabled then "Enabled" else "Disabled"))
  ++ [eqLine]

/-- generate_report: the joined report text. -/
def generate_report (cfg : Config) (is_monitoring : Bool)
    (stats : Statistics) (now : Nat) : String :=
  "\n".intercalate (generate_report_lines cfg is_monitoring stats now)

/-- The default configuration of _get_default_config. -/
def default_config : Config :=
  { watch_folders := []
    import_rules :=
      [("characters",
        { destination := "/Game/Characters/"
          translator_options :=
            [("EnableDetailedLogging", "true"), ("ValidateInputFiles", "true")]
          file_patterns := ["*character*", "*char*"]
          auto_import := true }),
       ("environments",
        { destination := "/Game/Environments/"
          translator_options :=
            [("EnableDetailedLogging", "true"), ("ValidateInputFiles", "true")]
          file_patterns := ["*env*", "*environment*", "*level*"]
          auto_import := true }),
       ("props",
        { destination := "/Game/Props/"
          translator_options := [("EnableDetailedLogging", "true")]
          file_patterns := ["*prop*", "*object*"]
          auto_import := true })]
    quality_checks :=
      { enabled := true
        max_file_size_mb := 100
        min_file_size_bytes := 1024
        allowed_extensions := [".foo", ".bar"]
        scan_for_viruses := false }
    performance :=
      { max_concurrent_imports := 3
        processing_delay_seconds := 2
        batch_size := 10
        timeout_seconds := 300 } }

/-- Deliver a burst of raw events for one path to the per-folder queue:
each triple carries the event type, the enqueue clock reading and the
category tag of the watched folder. -/
def applyEvents (q : List PendingEvent) (p : String) :
    List (String × Nat × String) → List PendingEvent
  | [] => q
  | (et, ts, cat) :: rest =>
    applyEvents (queue_file_for_processing q p et ts cat) p rest

/-- A filesystem oracle where every path exists and has the given size. -/
def fsConst (sz : Nat) : FileSystem :=
  { path_exists := fun _ => true
    getsize := fun _ => sz
    abspath := fun p => p }

/-- A filesystem oracle with three sample files: a 0-byte file, a 200 MB
file and a 2048-byte file; every path exists. -/
def fsSizes : FileSystem :=
  { path_exists := fun _ => true
    getsize := fun p =>
      if p = "empty.foo" then 0
      else if p = "big.foo" then 200000000
      else 2048
    abspath := fun p => p }

/-- A filesystem oracle where no path exists. -/
def fsNone : FileSystem :=
  { path_exists := fun _ => false
    getsize := fun _ => 0
    abspath := fun p => p }

/-- A backend oracle that validates and imports everything. -/
def trOk : Translator :=
  { validate_file := fun _ => (true, "")
    import_file := fun _ _ => .ok true }

/-- A backend oracle that fails the import of exactly the two paths d
and e and succeeds on every other path. -/
def trFail2 : Translator :=
  { validate_file := fun _ => (true, "")
    import_file := fun p _ =>
      if p = "d" ∨ p = "e" then .ok false else .ok true }

/-- A size-only quality policy with the bounds named by the spec
(max_mb = 100, min_bytes = 1024) and no extension restriction. -/
def qcSize : QualityPolicy :=
  { enabled := true
    max_file_size_mb := 100
    min_file_size_bytes := 1024
    allowed_extensions := []
    scan_for_viruses := false }

/-- A quality policy with max_mb = 1 and no minimum, used to separate
the decimal megabyte reading of the bound from the binary one the code
uses. -/
def qcMb1 : QualityPolicy :=
  { enabled := true
    max_file_size_mb := 1
    min_file_size_bytes := 0
    allowed_extensions := []
    scan_for_viruses := false }

/-- An empty manager state over the default configuration with no
watch folders. -/
def stEmpty : ManagerState :=
  { config := default_config
    is_monitoring := false
    observers := [] }

/-- The clock-independent report lines before the Generated timestamp
line (the report banner). -/
def report_header : List String :=
  [eqLine, "INTERCHANGE AUTOMATION REPORT", eqLine]

/-- The clock-independent report lines between the Generated line and
the optional Uptime line: the blank separator and the system status
head. -/
def report_mid (cfg : Config) (is_monitoring : Bool) : List String :=
  ["",
   "SYSTEM STATUS:",
   "  Monitoring Active: " ++ (if is_monitoring then "Yes" else "No"),
   "  Watched Folders: " ++ toString cfg.watch_folders.length,
   "  Import Rules: " ++ toString cfg.import_rules.length]

/-- The clock-independent report lines after the optional Uptime line:
processing statistics, performance metrics, category breakdown, folder
configuration and the closing separator. -/
def report_tail (cfg : Config) (stats : Statistics) : List String :=
  [""]
  ++ ["PROCESSING STATISTICS:",
      "  Total Processed: " ++ toString stats.total_processed,
      "  Successful: " ++ toString stats.successful_imports,
      "  Failed: " ++ toString stats.failed_imports,
      "  Success Rate: " ++
        format_fixed (if stats.total_processed > 0 then
          ((stats.successful_imports : Rat) /
            (stats.total_processed : Rat)) * 100 else 0) 1 ++ "%",
      ""]
  ++ (match (match stats.processing_times with
        | [] => none
        | _ => some (stats.processing_times.sum /
            (stats.processing_times.length : Rat))),
        listMin stats.processing_times, listMax stats.processing_times with
      | some avg, some mn, some mx =>
        if avg = 0 then []
        else
          ["PERFORMANCE METRICS:",
           "  Average Processing Time: " ++ format_fixed avg 3 ++ "s",
           "  Min Processing Time: " ++ format_fixed mn 3 ++ "s",
           "  Max Processing Time: " ++ format_fixed mx 3 ++ "s",
           ""]
      | _, _, _ => [])
  ++ (if stats.files_per_category = [] then []
      else
        "FILES BY CATEGORY:" ::
          stats.files_per_category.map
            (fun e => "  " ++ e.1 ++ ": " ++ toString e.2) ++ [""])
  ++ ["CONFIGURATION:"]
  ++ cfg.watch_folders.map (fun folder =>
      "  " ++ folder.path ++ " (" ++ folder.category ++ ") - " ++
        (if folder.enabled then "Enabled" else "Disabled"))
  ++ [eqLine]

/-- C10: calling add_watch_folder with a path that does not exist on the
filesystem returns false and leaves the manager state unchanged: no
WatchEntry is appended to the configuration and no watch is started,
whatever the requested enabled flag. -/
theorem c10_add_nonexistent_folder (fs : FileSystem) (st : ManagerState)
    (folder_path category : String) (enabled : Bool) (now : Nat)
    (h : fs.path_exists folder_path = false) :
    add_watch_folder fs st folder_path category enabled now = (false, st) := by
  unfold add_watch_folder
  rw [h]
  simp

/-- C10 witness: adding a folder over a filesystem where nothing exists
fails and changes nothing. -/
theorem c10_add_nonexistent_folder_witness :
    add_watch_folder fsNone stEmpty "/watch/in" "characters" true 7 =
      (false, stEmpty) :=
  c10_add_nonexistent_folder fsNone stEmpty "/watch/in" "characters" true 7 rfl

/-- C7: after reset_statistics all counters are zero, the per-category
counts, duration history and last activity are empty, the start time is
re-armed to now exactly when monitoring is active, and get_statistics
reports no uptime after a reset unless monitoring is currently
running. -/
theorem c7_reset_statistics (mon : Bool) (now : Nat) (cfg : Config)
    (t : Nat) :
    (reset_statistics mon now).total_processed = 0 ∧
    (reset_statistics mon now).successful_imports = 0 ∧
    (reset_statistics mon now).failed_imports = 0 ∧
    (reset_statistics mon now).files_per_category = [] ∧
    (reset_statistics mon now).processing_times = [] ∧
    (reset_statistics mon now).last_activity = none ∧
    (reset_statistics mon now).start_time =
      (if mon then some now else none) ∧
    ((get_statistics (reset_statistics mon now) mon cfg t).uptime_seconds
        = none ↔ mon = false) ∧
    ((get_statistics (reset_statistics mon now) mon cfg t).uptime_formatted
        = none ↔ mon = false) := by
  cases mon <;> simp [reset_statistics, get_statistics]

/-- C1 counterexample: with max_mb = 1 and a 1000001-byte file, the
claim's decimal reading of the bound (max_mb times ten to the sixth)
says the file must be rejected as too large, but the quality check
passes: the code bounds the size by max_mb * 1024 * 1024 bytes. -/
theorem c1_counterexample :
    (fsConst 1000001).getsize "f.foo" > qcMb1.max_file_size_mb * 1000000 ∧
    qcMb1.enabled = true ∧
    (fsConst 1000001).path_exists "f.foo" = true ∧
    perform_quality_checks (fsConst 1000001) trOk qcMb1 "f.foo" =
      .pass := by
  decide

/-- C1 (amended): for every enabled quality policy and existing path,
the check rejects the file as too large exactly when its size exceeds
max_mb * 1024 * 1024 bytes (the binary megabyte bound, not max_mb times
ten to the sixth), and with the distinct too-small reason exactly when
the size is within the maximum but below min_bytes; the concrete
examples (0-byte file too small, 200 MB file too large, 2048-byte file
passing the size checks under max_mb = 100, min_bytes = 1024) hold as
stated. -/
theorem c1_size_check_reasons (qc : QualityPolicy) (fs : FileSystem)
    (tr : Translator) (file_path : String)
    (henabled : qc.enabled = true)
    (hexists : fs.path_exists file_path = true) :
    (perform_quality_checks fs tr qc file_path = .tooLarge ↔
      fs.getsize file_path > qc.max_file_size_mb * 1024 * 1024) ∧
    (perform_quality_checks fs tr qc file_path = .tooSmall ↔
      (fs.getsize file_path ≤ qc.max_file_size_mb * 1024 * 1024 ∧
        fs.getsize file_path < qc.min_file_size_bytes)) := by
  unfold perform_quality_checks
  rw [henabled, hexists]
  simp only [Bool.not_true, Bool.false_eq_true, if_false]
  by_cases h1 :
      fs.getsize file_path > qc.max_file_size_mb * 1024 * 1024
  · simp [h1]
  · by_cases h2 : fs.getsize file_path < qc.min_file_size_bytes
    · simp [h1, h2]
      omega
    · rcases hv : tr.validate_file file_path with ⟨b, msg⟩
      cases b <;> simp [h1, h2, hv] <;>
        refine ⟨?_, ?_⟩ <;> split <;> simp

/-- C2: on every single-file processing call, the failed_imports counter
grows by one exactly when a rule with auto_import was found and either
the quality gate rejected the file, or the file matched the patterns and
the external import returned false or raised; and the returned success
flag is true only when every gate passed and the import returned true,
so the classification misses (no rule, auto_import disabled, pattern
mismatch) return false with failed_imports untouched. -/
theorem c2_failed_counter (fs : FileSystem) (tr : Translator)
    (cfg : Config) (stats : Statistics) (file_path category : String)
    (now : Nat) (elapsed : Rat) :
    ((process_single_file fs tr cfg stats file_path category now
        elapsed).2.failed_imports =
      stats.failed_imports +
        (match lookupRule cfg.import_rules category with
         | none => 0
         | some rule =>
           if rule.auto_import = false then 0
           else if quality_checks_pass fs tr cfg.quality_checks file_path
               = false then 1
           else if matches_file_patterns file_path rule.file_patterns
               = false then 0
           else
             match tr.import_file file_path rule.destination with
             | .ok true => 0
             | .ok false => 1
             | .error _ => 1)) ∧
    ((process_single_file fs tr cfg stats file_path category now
        elapsed).1 =
      (match lookupRule cfg.import_rules category with
       | none => false
       | some rule =>
         rule.auto_import &&
         quality_checks_pass fs tr cfg.quality_checks file_path &&
         matches_file_patterns file_path rule.file_patterns &&
         (match tr.import_file file_path rule.destination with
          | .ok true => true
          | _ => false))) := by
  unfold process_single_file recordProcessingTime
  rcases lookupRule cfg.import_rules category with _ | rule
  · simp
  · cases hb : rule.auto_import <;>
      cases hq : quality_checks_pass fs tr cfg.quality_checks file_path <;>
      cases hm : matches_file_patterns file_path rule.file_patterns <;>
      simp [hb, hq, hm]
    cases hi : tr.import_file file_path rule.destination with
    | ok b => cases b <;> simp [hi]
    | error e => simp [hi]

/-- Shared lemma: whatever branch process_single_file takes, the
duration history of the resulting statistics is the input history with
the elapsed time appended, truncated to its last 100 entries. -/
theorem process_single_file_times (fs : FileSystem) (tr : Translator)
    (cfg : Config) (stats : Statistics) (file_path category : String)
    (now : Nat) (elapsed : Rat) :
    (process_single_file fs tr cfg stats file_path category now
        elapsed).2.processing_times =
      (if (stats.processing_times ++ [elapsed]).length > 100 then
        (stats.processing_times ++ [elapsed]).drop
          ((stats.processing_times ++ [elapsed]).length - 100)
      else stats.processing_times ++ [elapsed]) := by
  unfold process_single_file recordProcessingTime
  rcases lookupRule cfg.import_rules category with _ | rule
  · simp
  · cases hb : rule.auto_import <;>
      cases hq : quality_checks_pass fs tr cfg.quality_checks file_path <;>
      cases hm : matches_file_patterns file_path rule.file_patterns <;>
      simp [hb, hq, hm]
    cases hi : tr.import_file file_path rule.destination with
    | ok b => cases b <;> simp [hi]
    | error e => simp [hi]

/-- C9: every single-file processing call, on every branch, appends
exactly one elapsed-duration sample to the processing-time history (the
last entry of the new history is the elapsed time) and the history
stays bounded by the 100 most recent samples. -/
theorem c9_duration_history (fs : FileSystem) (tr : Translator)
    (cfg : Config) (stats : Statistics) (file_path category : String)
    (now : Nat) (elapsed : Rat)
    (h : stats.processing_times.length ≤ 100) :
    ((process_single_file fs tr cfg stats file_path category now
        elapsed).2.processing_times.length =
      min (stats.processing_times.length + 1) 100) ∧
    ((process_single_file fs tr cfg stats file_path category now
        elapsed).2.processing_times.getLast? = some elapsed) := by
  rw [process_single_file_times]
  by_cases hlen : (stats.processing_times ++ [elapsed]).length > 100
  · have h100 : stats.processing_times.length = 100 := by
      simp only [List.length_append, List.length_cons,
        List.length_nil] at hlen
      omega
    rw [if_pos hlen]
    constructor
    · simp only [List.length_drop, List.length_append, List.length_cons,
        List.length_nil]
      omega
    · rw [List.drop_append_of_le_length (by simp [h100])]
      exact List.getLast?_concat _
  · rw [if_neg hlen]
    simp only [List.length_append, List.length_cons, List.length_nil]
      at hlen ⊢
    constructor
    · omega
    · exact List.getLast?_concat _

/-- C9 witness: processing a file over empty statistics records exactly
the one elapsed sample. -/
theorem c9_duration_history_witness :
    ((process_single_file fsSizes trOk default_config initialStatistics
        "mid.foo" "props" 3 (5 : Rat)).2.processing_times.length =
      min (initialStatistics.processing_times.length + 1) 100) ∧
    ((process_single_file fsSizes trOk default_config initialStatistics
        "mid.foo" "props" 3 (5 : Rat)).2.processing_times.getLast? =
      some (5 : Rat)) :=
  c9_duration_history fsSizes trOk default_config initialStatistics
    "mid.foo" "props" 3 (5 : Rat) (by decide)

/-- Shared helper: a predicate count and its complement count add up to
the list length. -/
theorem countP_add_countP_not {α : Type} (l : List α) (p : α → Bool) :
    l.countP p + l.countP (fun a => !p a) = l.length := by
  induction l with
  | nil => simp
  | cons a rest ih =>
    cases ha : p a <;>
      simp [List.countP_cons, ha] <;> omega

/-- Shared helper: closed form of the batch_import_files fold from any
accumulator: the success and failure counts grow by the number of files
whose import returned true and by the number of the rest, and one detail
record per file is appended in order, tagged by the import outcome. -/
theorem batch_foldl_spec (tr : Translator) (dest : String)
    (paths : List String) (s f : Nat) (ds : List BatchDetail) :
    paths.foldl (batchStep tr dest) (s, f, ds) =
      (s + paths.countP (fun q =>
          match tr.import_file q dest with
          | .ok true => true
          | _ => false),
       f + paths.countP (fun q =>
          !(match tr.import_file q dest with
            | .ok true => true
            | _ => false)),
       ds ++ paths.map (fun q =>
          match tr.import_file q dest with
          | .ok true => ⟨q, "success", dest⟩
          | .ok false => ⟨q, "failed", "Import failed"⟩
          | .error e => ⟨q, "error", e⟩)) := by
  induction paths generalizing s f ds with
  | nil => simp
  | cons p rest ih =>
    simp only [List.foldl_cons, List.countP_cons, List.map_cons]
    cases hi : tr.import_file p dest with
    | ok b =>
      cases b <;>
        simp only [batchStep, hi, ih, Prod.mk.injEq] <;>
        refine ⟨?_, ?_, by simp⟩ <;> simp <;> omega
    | error e =>
      simp only [batchStep, hi, ih, Prod.mk.injEq]
      refine ⟨?_, ?_, by simp⟩ <;> simp <;> omega

/-- C5: batch import processes every file of the input list: each file
gets exactly one detail record, in input order, tagged success, failed
or error according to the import outcome (an exception never aborts the
loop, it yields an error record for that file), and the success and
failure counts add up to the total file count. -/
theorem c5_batch_never_aborts (tr : Translator) (file_paths : List String)
    (destination_path : String) :
    (batch_import_files tr file_paths destination_path).total_files =
      file_paths.length ∧
    (batch_import_files tr file_paths destination_path).successful +
        (batch_import_files tr file_paths destination_path).failed =
      file_paths.length ∧
    (batch_import_files tr file_paths destination_path).details =
      file_paths.map (fun q =>
        match tr.import_file q destination_path with
        | .ok true => ⟨q, "success", destination_path⟩
        | .ok false => ⟨q, "failed", "Import failed"⟩
        | .error e => ⟨q, "error", e⟩) := by
  unfold batch_import_files
  rw [batch_foldl_spec]
  refine ⟨rfl, ?_, by simp⟩
  simpa using countP_add_countP_not file_paths (fun q =>
    match tr.import_file q destination_path with
    | .ok true => true
    | _ => false)

/-- C6: the derived success rate of a batch import equals
(successful / total) * 100 and is exactly 0 for an empty input list; in
particular a batch of five paths where the backend fails exactly two
imports yields successful 3, failed 2 and a success rate of 60. -/
theorem c6_success_rate (tr : Translator) (file_paths : List String)
    (destination_path : String) :
    ((batch_import_files tr file_paths destination_path).success_rate =
      if file_paths.length = 0 then 0
      else ((batch_import_files tr file_paths destination_path).successful :
          Rat) / (file_paths.length : Rat) * 100) ∧
    (batch_import_files tr [] destination_path).success_rate = 0 ∧
    (batch_import_files trFail2 ["a", "b", "c", "d", "e"]
        "/Game/Batch/").successful = 3 ∧
    (batch_import_files trFail2 ["a", "b", "c", "d", "e"]
        "/Game/Batch/").failed = 2 ∧
    (batch_import_files trFail2 ["a", "b", "c", "d", "e"]
        "/Game/Batch/").success_rate = 60 := by
  refine ⟨?_, by simp [batch_import_files], by decide, by decide, ?_⟩
  · by_cases h : file_paths.length = 0 <;>
      simp [batch_import_files, h] <;> omega
  · simp +decide [batch_import_files, batchStep, trFail2]
    norm_num

/-- Shared helper: a raw event for a path that is already queued leaves
the queue unchanged. -/
theorem queue_file_of_mem (q : List PendingEvent) (p et : String)
    (ts : Nat) (cat : String) (h : p ∈ q.map PendingEvent.path) :
    queue_file_for_processing q p et ts cat = q := by
  unfold queue_file_for_processing
  simp [h]

/-- Shared helper: a raw event for a path that is not yet queued appends
exactly one entry for it. -/
theorem queue_file_of_not_mem (q : List PendingEvent) (p et : String)
    (ts : Nat) (cat : String) (h : p ∉ q.map PendingEvent.path) :
    queue_file_for_processing q p et ts cat = q ++ [⟨p, et, ts, cat⟩] := by
  unfold queue_file_for_processing
  simp [h]

/-- Shared helper: a whole burst of raw events for an already-queued path
leaves the queue unchanged. -/
theorem applyEvents_of_mem (q : List PendingEvent) (p : String)
    (events : List (String × Nat × String))
    (h : p ∈ q.map PendingEvent.path) : applyEvents q p events = q := by
  induction events with
  | nil => rfl
  | cons e rest ih =>
    rcases e with ⟨et, ts, cat⟩
    show applyEvents (queue_file_for_processing q p et ts cat) p rest = q
    rw [queue_file_of_mem q p et ts cat h, ih]

/-- C4: the per-folder pending queue holds at most one entry per path:
an enqueue step preserves distinctness of the queued paths, and a
non-empty burst of raw events for one fresh path appends exactly one
entry for it, so the drained snapshot processed by the flush contains
exactly one item for that path and the queue is left empty. -/
theorem c4_queue_dedup (q q2 : List PendingEvent) (p p2 et2 : String)
    (ts2 : Nat) (cat2 : String) (events : List (String × Nat × String))
    (hq : p ∉ q.map PendingEvent.path) (hne : events ≠ [])
    (hnd : (q2.map PendingEvent.path).Nodup) :
    ((queue_file_for_processing q2 p2 et2 ts2 cat2).map
        PendingEvent.path).Nodup ∧
    (applyEvents q p events).map PendingEvent.path =
      q.map PendingEvent.path ++ [p] ∧
    (process_queue_drain (applyEvents q p events)).1.countP
        (fun e => e.path == p) = 1 ∧
    (process_queue_drain (applyEvents q p events)).2 = [] := by
  have hmap : (applyEvents q p events).map PendingEvent.path =
      q.map PendingEvent.path ++ [p] := by
    cases events with
    | nil => exact absurd rfl hne
    | cons e rest =>
      rcases e with ⟨et, ts, cat⟩
      show (applyEvents (queue_file_for_processing q p et ts cat) p
          rest).map PendingEvent.path = _
      rw [queue_file_of_not_mem q p et ts cat hq,
        applyEvents_of_mem _ p rest (by simp)]
      simp
  refine ⟨?_, hmap, ?_, rfl⟩
  · by_cases h : p2 ∈ q2.map PendingEvent.path
    · rw [queue_file_of_mem q2 p2 et2 ts2 cat2 h]
      exact hnd
    · rw [queue_file_of_not_mem q2 p2 et2 ts2 cat2 h]
      simp [List.nodup_append, hnd, h]
  · show (applyEvents q p events).countP (fun e => e.path == p) = 1
    have hcp : (applyEvents q p events).countP (fun e => e.path == p) =
        ((applyEvents q p events).map PendingEvent.path).countP
          (fun x => x == p) := by
      rw [List.countP_map]
      rfl
    rw [hcp, hmap, List.countP_append]
    have hzero : (q.map PendingEvent.path).countP (fun x => x == p) = 0 := by
      rw [List.countP_eq_zero]
      intro a ha
      simp only [beq_iff_eq]
      intro hap
      exact hq (hap ▸ ha)
    rw [hzero]
    simp

/-- C4 witness: three rapid events (created, modified, modified) for one
path over an initially empty queue yield exactly one queued and drained
item for that path. -/
theorem c4_queue_dedup_witness :
    (((queue_file_for_processing [⟨"/w/other.foo", "created", 0, "props"⟩]
        "/w/a.foo" "created" 1 "props").map PendingEvent.path).Nodup) ∧
    (applyEvents [] "/w/a.foo"
        [("created", 0, "props"), ("modified", 1, "props"),
         ("modified", 2, "props")]).map PendingEvent.path =
      ([] : List PendingEvent).map PendingEvent.path ++ ["/w/a.foo"] ∧
    (process_queue_drain (applyEvents [] "/w/a.foo"
        [("created", 0, "props"), ("modified", 1, "props"),
         ("modified", 2, "props")])).1.countP
        (fun e => e.path == "/w/a.foo") = 1 ∧
    (process_queue_drain (applyEvents [] "/w/a.foo"
        [("created", 0, "props"), ("modified", 1, "props"),
         ("modified", 2, "props")])).2 = [] :=
  c4_queue_dedup [] [⟨"/w/other.foo", "created", 0, "props"⟩]
    "/w/a.foo" "/w/a.foo" "created" 1 "props"
    [("created", 0, "props"), ("modified", 1, "props"),
     ("modified", 2, "props")]
    (by decide) (by decide) (by decide)

/-- Shared helper: starting an individual folder watch never changes the
configuration. -/
theorem start_folder_monitoring_config (fs : FileSystem)
    (st : ManagerState) (entry : WatchEntry) :
    (start_folder_monitoring fs st entry).config = st.config := by
  unfold start_folder_monitoring
  split
  · rfl
  · split <;> rfl

/-- Shared helper: adding a folder whose canonical path is already
configured fails and changes nothing. -/
theorem add_watch_folder_of_mem (fs : FileSystem) (st : ManagerState)
    (folder_path category : String) (enabled : Bool) (now : Nat)
    (hex : fs.path_exists folder_path = true)
    (hmem : fs.abspath folder_path ∈
      st.config.watch_folders.map WatchEntry.path) :
    add_watch_folder fs st folder_path category enabled now =
      (false, st) := by
  unfold add_watch_folder
  rw [hex]
  simp [hmem]

/-- Shared helper: adding a folder whose canonical path is not yet
configured succeeds and appends exactly one entry for it. -/
theorem add_watch_folder_of_not_mem (fs : FileSystem) (st : ManagerState)
    (folder_path category : String) (enabled : Bool) (now : Nat)
    (hex : fs.path_exists folder_path = true)
    (hmem : fs.abspath folder_path ∉
      st.config.watch_folders.map WatchEntry.path) :
    (add_watch_folder fs st folder_path category enabled now).1 = true ∧
    (add_watch_folder fs st folder_path category enabled
        now).2.config.watch_folders =
      st.config.watch_folders ++
        [⟨fs.abspath folder_path, category, enabled, now⟩] := by
  unfold add_watch_folder
  rw [hex]
  have hc : ((st.config.watch_folders.map WatchEntry.path).contains
      (fs.abspath folder_path)) = false := by
    simp [hmem]
  simp only [Bool.not_true, Bool.false_eq_true, if_false, hc,
    Bool.not_false, if_true]
  refine ⟨trivial, ?_⟩
  split
  · rw [start_folder_monitoring_config]
  · rfl

/-- Shared helper: counting watch entries by path equals counting the
path in the projected path list. -/
theorem countP_path_eq_count (wf : List WatchEntry) (x : String) :
    wf.countP (fun w => w.path == x) = (wf.map WatchEntry.path).count x := by
  induction wf with
  | nil => simp
  | cons w rest ih =>
    by_cases hwx : w.path = x <;>
      simp [List.count_cons, List.countP_cons, ih, hwx] <;>
      omega

/-- C8: adding a watch folder is idempotent on the canonical path: for
an existing folder, after two identical add calls the configuration
holds exactly one WatchEntry for the canonical path, the second call
reports failure and changes nothing, and the at-most-one-entry-per-path
invariant is preserved. -/
theorem c8_add_watch_folder_idempotent (fs : FileSystem)
    (st : ManagerState) (folder_path category : String) (enabled : Bool)
    (n1 n2 : Nat) (hex : fs.path_exists folder_path = true)
    (hnd : (st.config.watch_folders.map WatchEntry.path).Nodup) :
    (add_watch_folder fs (add_watch_folder fs st folder_path category
        enabled n1).2 folder_path category enabled n2).1 = false ∧
    (add_watch_folder fs (add_watch_folder fs st folder_path category
        enabled n1).2 folder_path category enabled n2).2 =
      (add_watch_folder fs st folder_path category enabled n1).2 ∧
    ((add_watch_folder fs st folder_path category enabled
        n1).2.config.watch_folders.map WatchEntry.path).Nodup ∧
    (add_watch_folder fs st folder_path category enabled
        n1).2.config.watch_folders.countP
      (fun w => w.path == fs.abspath folder_path) = 1 := by
  by_cases hmem : fs.abspath folder_path ∈
      st.config.watch_folders.map WatchEntry.path
  · rw [add_watch_folder_of_mem fs st folder_path category enabled n1
      hex hmem]
    rw [show ((false, st) : Bool × ManagerState).2 = st from rfl]
    rw [add_watch_folder_of_mem fs st folder_path category enabled n2
      hex hmem]
    refine ⟨rfl, rfl, hnd, ?_⟩
    rw [countP_path_eq_count]
    exact List.count_eq_one_of_mem hnd hmem
  · obtain ⟨-, h2⟩ := add_watch_folder_of_not_mem fs st folder_path
      category enabled n1 hex hmem
    have hmem2 : fs.abspath folder_path ∈
        ((add_watch_folder fs st folder_path category enabled
          n1).2.config.watch_folders.map WatchEntry.path) := by
      rw [h2]
      simp
    rw [add_watch_folder_of_mem fs _ folder_path category enabled n2
      hex hmem2]
    refine ⟨rfl, rfl, ?_, ?_⟩
    · rw [h2]
      simp [List.nodup_append, hnd, hmem]
    · rw [h2, List.countP_append, countP_path_eq_count]
      have hz : (st.config.watch_folders.map WatchEntry.path).count
          (fs.abspath folder_path) = 0 := by
        exact List.count_eq_zero.mpr hmem
      rw [hz]
      simp

/-- C8 witness: adding the same existing folder twice to an empty
configuration leaves exactly one entry for it, the second call failing
and changing nothing. -/
theorem c8_add_watch_folder_idempotent_witness :
    (add_watch_folder (fsConst 2048) (add_watch_folder (fsConst 2048)
        stEmpty "/watch/in" "characters" true 1).2 "/watch/in"
        "characters" true 2).1 = false ∧
    (add_watch_folder (fsConst 2048) (add_watch_folder (fsConst 2048)
        stEmpty "/watch/in" "characters" true 1).2 "/watch/in"
        "characters" true 2).2 =
      (add_watch_folder (fsConst 2048) stEmpty "/watch/in" "characters"
        true 1).2 ∧
    ((add_watch_folder (fsConst 2048) stEmpty "/watch/in" "characters"
        true 1).2.config.watch_folders.map WatchEntry.path).Nodup ∧
    (add_watch_folder (fsConst 2048) stEmpty "/watch/in" "characters"
        true 1).2.config.watch_folders.countP
      (fun w => w.path == (fsConst 2048).abspath "/watch/in") = 1 :=
  c8_add_watch_folder_idempotent (fsConst 2048) stEmpty "/watch/in"
    "characters" true 1 2 rfl (by decide)

set_option maxRecDepth 4000 in
/-- C3 counterexample: the report embeds the generation timestamp, so
two calls over an unchanged state but at different clock readings
produce different text (the Generated line differs). -/
theorem c3_counterexample :
    generate_report default_config false initialStatistics 0 ≠
      generate_report default_config false initialStatistics 1 := by
  decide

/-- C3 (amended): report generation is deterministic given the state
snapshot, configuration and clock reading, and depends on the clock
only through the embedded Generated timestamp line and, once monitoring
has started, the Uptime line: the report lines decompose into a
clock-independent header, the Generated line, clock-independent status
lines, the Uptime line exactly when a monitoring start time exists, and
a clock-independent tail.  Hence two calls with no state change agree
on every line other than the Generated (and, with a start time, Uptime)
lines, and are byte-identical exactly when those lines coincide. -/
theorem c3_report_deterministic_modulo_timestamp (cfg : Config)
    (mon : Bool) (stats : Statistics) (t : Nat) :
    generate_report_lines cfg mon stats t =
      report_header ++
        ("Generated: " ++ isoformat t) ::
          report_mid cfg mon ++
            (match stats.start_time with
             | none => []
             | some s => ["  Uptime: " ++ format_timedelta (t - s)]) ++
              report_tail cfg stats := by
  cases h : stats.start_time <;>
    simp [generate_report_lines, get_statistics, report_header,
      report_mid, report_tail, h]

/-- C1 witness: under max_mb = 100 and min_bytes = 1024, the 0-byte file
fails as too small, the 200 MB file fails as too large, and the
2048-byte file passes both size checks. -/
theorem c1_size_check_reasons_witness :
    perform_quality_checks fsSizes trOk qcSize "empty.foo" = .tooSmall ∧
    perform_quality_checks fsSizes trOk qcSize "big.foo" = .tooLarge ∧
    perform_quality_checks fsSizes trOk qcSize "mid.foo" ≠ .tooSmall ∧
    perform_quality_checks fsSizes trOk qcSize "mid.foo" ≠ .tooLarge :=
  ⟨(c1_size_check_reasons qcSize fsSizes trOk "empty.foo" rfl rfl).2.mpr
      (by decide),
   (c1_size_check_reasons qcSize fsSizes trOk "big.foo" rfl rfl).1.mpr
      (by decide),
   by decide,
   by decide⟩

end Automation
